import Mathlib

/-!
Verification of the phishin command-line client against its specification.

The Go sources are embedded shallowly: pure string manipulation becomes Lean
functions on `String` and `List String`, the flag-driven argument normalizer
becomes a function from a flags record to `Except String Client`, renderers
become functions producing a list of output lines, and the effectful parts of
the downloader (directory creation) are modelled by an explicit success
parameter.  Go `int` values are modelled by `Int`; byte counts (`int64`,
non-negative in every reachable call) by `Nat`.

The repository carries several iterations of the same client.  The most
recent iteration (the `PrettyPrinter`-based one: `Client` with `RawOutput`,
renderers as `PrettyPrint` methods) is modelled at top level; where an older
iteration differs on a claim-relevant point its function is modelled in the
`EarlierCli` (earlier iteration of the `cli` package) or `GoPhishin`
(earliest iteration, package `phishin`) namespace.
-/

/-- Client state, from `Client` in the cli package: the fields relevant to
URL formatting and argument normalization.  (Transport fields such as the
HTTP client and writers are external collaborators and are not modelled.) -/
structure Client where
  BaseURL : String
  PrintJSON : Bool := false
  Query : String := ""
  Parameters : List String := []
  Verbose : Bool := false
  Debug : Bool := false
  Download : Bool := false
  RawOutput : Bool := false
deriving Repr, DecidableEq

/-- `NewClient` sets the base URL and leaves the zero values elsewhere. -/
def newClient : Client :=
  { BaseURL := ("https://phish.in/api/v1") }

/-- `Client.FormatURL`: when the identifier (`Query`) is non-empty the URL is
`BaseURL/path/Query` and the function returns at once; otherwise the joined
parameters are attached after a `?` when the parameter list is non-empty. -/
def Client.FormatURL (c : Client) (path : String) : String :=
  if c.Query ≠ "" then
    -- return now to avoid mixing in params
    c.BaseURL ++ "/" ++ path ++ "/" ++ c.Query
  else
    let url := c.BaseURL ++ "/" ++ path
    if c.Parameters ≠ [] then
      url ++ "?" ++ String.intercalate "&" c.Parameters
    else
      url

/-- C1: with a non-empty identifier, `FormatURL` returns `baseURL/path/identifier`
and no computed parameter is appended; the parameters are joined with `&` after
a `?` exactly when the identifier is empty and the parameter list is non-empty. -/
theorem formatURL_identifier_beats_parameters (c : Client) (path : String) :
    (c.Query ≠ "" → c.FormatURL path = c.BaseURL ++ "/" ++ path ++ "/" ++ c.Query) ∧
    (c.Query = "" → c.Parameters ≠ [] →
      c.FormatURL path =
        c.BaseURL ++ "/" ++ path ++ "?" ++ String.intercalate "&" c.Parameters) ∧
    (c.Query = "" → c.Parameters = [] →
      c.FormatURL path = c.BaseURL ++ "/" ++ path) := by
  refine ⟨fun h => ?_, fun h hp => ?_, fun h hp => ?_⟩
  · simp [Client.FormatURL, h]
  · simp [Client.FormatURL, h, hp]
  · simp [Client.FormatURL, h, hp]

/-- C1 witness: evaluating the three cases of the theorem on concrete clients. -/
theorem formatURL_identifier_beats_parameters_witness :
    ({ newClient with
        Query := ("harry-hood")
        Parameters := [("per_page=3")] }.FormatURL ("songs") =
      ("https://phish.in/api/v1/songs/harry-hood")) ∧
    ({ newClient with Parameters := [("per_page=3"), ("page=2")] }.FormatURL ("songs") =
      ("https://phish.in/api/v1/songs?per_page=3&page=2")) ∧
    (newClient.FormatURL ("songs") = ("https://phish.in/api/v1/songs")) := by
  refine ⟨?_, ?_, ?_⟩
  · exact (formatURL_identifier_beats_parameters
      { newClient with
          Query := ("harry-hood")
          Parameters := [("per_page=3")] }
      ("songs")).1 (by decide)
  · exact (formatURL_identifier_beats_parameters
      { newClient with Parameters := [("per_page=3"), ("page=2")] }
      ("songs")).2.1 rfl (by decide)
  · exact (formatURL_identifier_beats_parameters newClient ("songs")).2.2 rfl rfl

/-! ### Endpoint path constants and argument normalization (phishin.go, client.go) -/

def erasPath : String := ("eras")

def yearsPath : String := ("years")

def songsPath : String := ("songs")

def toursPath : String := ("tours")

def venuesPath : String := ("venues")

def showsPath : String := ("shows")

def showOnDatePath : String := ("show-on-date")

def showsDayOfYearPath : String := ("shows-on-day-of-year")

def randomShowPath : String := ("random-show")

def tracksPath : String := ("tracks")

def searchPath : String := ("search")

def tagsPath : String := ("tags")

/-- The `endpointList` usage text returned for an unrecognized command (its
exact wording, a multi-line listing of the supported endpoints, is immaterial
to every claim and is abridged here). -/
def endpointList : String := ("supported endpoints: eras years songs tours venues shows show-on-date shows-on-day-of-year random-show tracks search tags")

/-- The values of the command-line flags after flag parsing, with the default
values declared in `fromArgs`.  Flag parsing itself (the `flag` package) is an
external collaborator. -/
structure Flags where
  search : String := ""
  output : String := ("text")
  sortDir : String := ""
  sortAttr : String := ""
  perPage : Int := 20
  page : Int := 1
  tag : String := ""
  verbose : Bool := false
  debug : Bool := false
  download : Bool := false
  raw : Bool := false
deriving Repr, DecidableEq

/-- `Client.parseSortParams`: `sort_dir` is appended only for the exact values
`asc` and `desc` (anything else is ignored); a non-blank `sort_attr` is
appended verbatim. -/
def Client.parseSortParams (c : Client) (sortDir sortAttr : String) : Client :=
  let c :=
    if sortDir = ("asc") then
      { c with Parameters := c.Parameters ++ [("sort_dir=asc")] }
    else if sortDir = ("desc") then
      { c with Parameters := c.Parameters ++ [("sort_dir=desc")] }
    else
      c
  if sortAttr ≠ "" then
    { c with Parameters := c.Parameters ++ [("sort_attr=") ++ sortAttr] }
  else
    c

/-- `Client.parsePageParams`: `per_page=v` is appended iff `v ≠ 20 ∧ v > 0`;
`page=p` is appended iff `p > 1`. -/
def Client.parsePageParams (c : Client) (perPage page : Int) : Client :=
  let c :=
    if perPage ≠ 20 ∧ perPage > 0 then
      { c with Parameters := c.Parameters ++ [("per_page=") ++ toString perPage] }
    else
      c
  if page > 1 then
    { c with Parameters := c.Parameters ++ [("page=") ++ toString page] }
  else
    c

/-- `Client.parseTag`: a non-blank tag value is appended as `tag=<value>`. -/
def Client.parseTag (c : Client) (tag : String) : Client :=
  if tag ≠ "" then
    { c with Parameters := c.Parameters ++ [("tag=") ++ tag] }
  else
    c

/-- `Client.fromArgs` of the current iteration, after flag parsing: copies the
flag values onto the client and then dispatches per endpoint.  Note that the
output flag value is only compared against `json` to set `PrintJSON`; no
validation of the output value happens anywhere in this function. -/
def Client.fromArgs (c : Client) (path : String) (fl : Flags) : Except String Client :=
  let c := { c with
    Query := fl.search
    PrintJSON := fl.output == ("json")
    Verbose := fl.verbose
    Debug := fl.debug
    Download := fl.download
    RawOutput := fl.raw }
  if path = showsPath ∨ path = tracksPath then
    Except.ok (((c.parseTag fl.tag).parsePageParams fl.perPage fl.page).parseSortParams
      fl.sortDir fl.sortAttr)
  else if path = songsPath ∨ path = venuesPath then
    Except.ok ((c.parsePageParams fl.perPage fl.page).parseSortParams fl.sortDir fl.sortAttr)
  else if path = yearsPath then
    -- always include this
    Except.ok { c with Parameters := c.Parameters ++ [("include_show_counts=true")] }
  else if path = showOnDatePath then
    if c.Query = "" then Except.error ("need a date") else Except.ok c
  else if path = showsDayOfYearPath then
    if c.Query = "" then Except.error ("need a day") else Except.ok c
  else if path = randomShowPath then
    -- does not take a parameter, so drop it if the user added one
    Except.ok { c with Query := "" }
  else if path = searchPath then
    if c.Query = "" then Except.error ("need a search term") else Except.ok c
  else if path = erasPath ∨ path = toursPath ∨ path = tagsPath then
    Except.ok c
  else
    Except.error endpointList

/-- `Client.validateParams` from the earliest iteration (package `phishin`,
go-phishin/client.go): the only place in any iteration where the output flag
value is validated.  Note that iteration spelled the tag parameter `tags=`. -/
def Client.validateParams (c : Client) (output : String) (verbose : Bool)
    (sortDir sortAttr tag : String) (perPage page : Int) : Except String Client :=
  if output ≠ ("text") ∧ output ≠ ("json") then
    Except.error ("output must be text or json")
  else
    let c := { c with
      PrintJSON := output == ("json")
      Verbose := verbose }
    let c :=
      if sortDir = ("asc") then
        { c with Parameters := c.Parameters ++ [("sort_dir=asc")] }
      else if sortDir = ("desc") then
        { c with Parameters := c.Parameters ++ [("sort_dir=desc")] }
      else
        c
    let c :=
      if sortAttr ≠ "" then
        { c with Parameters := c.Parameters ++ [("sort_attr=") ++ sortAttr] }
      else
        c
    let c :=
      if tag ≠ "" then
        { c with Parameters := c.Parameters ++ [("tags=") ++ tag] }
      else
        c
    let c :=
      if perPage ≠ 20 ∧ perPage > 0 then
        { c with Parameters := c.Parameters ++ [("per_page=") ++ toString perPage] }
      else
        c
    let c :=
      if page > 1 then
        { c with Parameters := c.Parameters ++ [("page=") ++ toString page] }
      else
        c
    Except.ok c

/-- Whether an `Except` computation succeeded. -/
def exceptOk : Except ε α → Bool
  | Except.ok _ => true
  | Except.error _ => false

/-! ### String disambiguation helpers for the parameter lists -/

/-- Two strings whose first two characters differ are distinct. -/
theorem string_ne_of_two {x y : String} {c1 c2 d1 d2 : Char} {r1 r2 : List Char}
    (hx : x.data = c1 :: c2 :: r1) (hy : y.data = d1 :: d2 :: r2)
    (h : ¬(c1 = d1 ∧ c2 = d2)) : x ≠ y := by
  intro he
  cases he
  have h2 : c1 :: c2 :: r1 = d1 :: d2 :: r2 := hx.symm.trans hy
  injection h2 with h3 h4
  injection h4 with h5 _
  exact h ⟨h3, h5⟩

theorem perPage_ne_page (v p : Int) :
    ("per_page=") ++ toString v ≠ ("page=") ++ toString p :=
  string_ne_of_two rfl rfl (by decide)

theorem perPage_ne_sortDirAsc (v : Int) : ("per_page=") ++ toString v ≠ ("sort_dir=asc") :=
  string_ne_of_two rfl (show (("sort_dir=asc") : String).data = 's' :: 'o' :: _ from rfl)
    (by decide)

theorem perPage_ne_sortDirDesc (v : Int) : ("per_page=") ++ toString v ≠ ("sort_dir=desc") :=
  string_ne_of_two rfl (show (("sort_dir=desc") : String).data = 's' :: 'o' :: _ from rfl)
    (by decide)

theorem perPage_ne_sortAttr (v : Int) (s : String) :
    ("per_page=") ++ toString v ≠ ("sort_attr=") ++ s :=
  string_ne_of_two rfl rfl (by decide)

theorem perPage_ne_tag (v : Int) (s : String) :
    ("per_page=") ++ toString v ≠ ("tag=") ++ s :=
  string_ne_of_two rfl rfl (by decide)

theorem page_ne_perPage (p v : Int) :
    ("page=") ++ toString p ≠ ("per_page=") ++ toString v :=
  string_ne_of_two rfl rfl (by decide)

theorem page_ne_sortDirAsc (p : Int) : ("page=") ++ toString p ≠ ("sort_dir=asc") :=
  string_ne_of_two rfl (show (("sort_dir=asc") : String).data = 's' :: 'o' :: _ from rfl)
    (by decide)

theorem page_ne_sortDirDesc (p : Int) : ("page=") ++ toString p ≠ ("sort_dir=desc") :=
  string_ne_of_two rfl (show (("sort_dir=desc") : String).data = 's' :: 'o' :: _ from rfl)
    (by decide)

theorem page_ne_sortAttr (p : Int) (s : String) :
    ("page=") ++ toString p ≠ ("sort_attr=") ++ s :=
  string_ne_of_two rfl rfl (by decide)

theorem page_ne_tag (p : Int) (s : String) : ("page=") ++ toString p ≠ ("tag=") ++ s :=
  string_ne_of_two rfl rfl (by decide)

/-! ### Membership facts about the parameter-appending helpers -/

theorem mem_parseTag_iff (c : Client) (t x : String) (h1 : ∀ s, x ≠ ("tag=") ++ s) :
    x ∈ (c.parseTag t).Parameters ↔ x ∈ c.Parameters := by
  unfold Client.parseTag
  split_ifs <;> simp [List.mem_append, h1 t]

theorem mem_parseSortParams_iff (c : Client) (sd sa x : String)
    (h1 : x ≠ ("sort_dir=asc")) (h2 : x ≠ ("sort_dir=desc"))
    (h3 : ∀ s, x ≠ ("sort_attr=") ++ s) :
    x ∈ (c.parseSortParams sd sa).Parameters ↔ x ∈ c.Parameters := by
  unfold Client.parseSortParams
  split_ifs <;> simp [List.mem_append, h1, h2, h3 sa]

theorem mem_parsePageParams_perPage (c : Client) (v p : Int)
    (h : (("per_page=") ++ toString v) ∉ c.Parameters) :
    (("per_page=") ++ toString v) ∈ (c.parsePageParams v p).Parameters ↔
      (v ≠ 20 ∧ 0 < v) := by
  unfold Client.parsePageParams
  split_ifs with hpp hpg hpg <;>
    simp [List.mem_append, h, hpp, perPage_ne_page v p]

theorem mem_parsePageParams_page (c : Client) (v p : Int)
    (h : (("page=") ++ toString p) ∉ c.Parameters) :
    (("page=") ++ toString p) ∈ (c.parsePageParams v p).Parameters ↔ 1 < p := by
  unfold Client.parsePageParams
  split_ifs with hpp hpg hpg <;>
    simp [List.mem_append, h, hpg, page_ne_perPage p v]

/-- C5: for the endpoints venues, shows, tracks and songs and every integer
flag pair, the normalizer succeeds and the resulting parameter list contains
`per_page=v` iff `v ≠ 20 ∧ v > 0` and `page=p` iff `p > 1`. -/
theorem pageParams_added_iff (path : String) (fl : Flags)
    (hp : path = venuesPath ∨ path = showsPath ∨ path = tracksPath ∨ path = songsPath) :
    ∃ c, newClient.fromArgs path fl = Except.ok c ∧
      ((("per_page=") ++ toString fl.perPage) ∈ c.Parameters ↔
        (fl.perPage ≠ 20 ∧ 0 < fl.perPage)) ∧
      ((("page=") ++ toString fl.page) ∈ c.Parameters ↔ 1 < fl.page) := by
  rcases hp with h | h | h | h <;> subst h
  · refine ⟨_, rfl, ?_, ?_⟩
    · rw [mem_parseSortParams_iff _ _ _ _ (perPage_ne_sortDirAsc _)
        (perPage_ne_sortDirDesc _) (fun s => perPage_ne_sortAttr _ s)]
      exact mem_parsePageParams_perPage _ _ _ (List.not_mem_nil _)
    · rw [mem_parseSortParams_iff _ _ _ _ (page_ne_sortDirAsc _)
        (page_ne_sortDirDesc _) (fun s => page_ne_sortAttr _ s)]
      exact mem_parsePageParams_page _ _ _ (List.not_mem_nil _)
  · refine ⟨_, rfl, ?_, ?_⟩
    · rw [mem_parseSortParams_iff _ _ _ _ (perPage_ne_sortDirAsc _)
        (perPage_ne_sortDirDesc _) (fun s => perPage_ne_sortAttr _ s)]
      refine mem_parsePageParams_perPage _ _ _ ?_
      rw [mem_parseTag_iff _ _ _ (fun s => perPage_ne_tag _ s)]
      exact List.not_mem_nil _
    · rw [mem_parseSortParams_iff _ _ _ _ (page_ne_sortDirAsc _)
        (page_ne_sortDirDesc _) (fun s => page_ne_sortAttr _ s)]
      refine mem_parsePageParams_page _ _ _ ?_
      rw [mem_parseTag_iff _ _ _ (fun s => page_ne_tag _ s)]
      exact List.not_mem_nil _
  · refine ⟨_, rfl, ?_, ?_⟩
    · rw [mem_parseSortParams_iff _ _ _ _ (perPage_ne_sortDirAsc _)
        (perPage_ne_sortDirDesc _) (fun s => perPage_ne_sortAttr _ s)]
      refine mem_parsePageParams_perPage _ _ _ ?_
      rw [mem_parseTag_iff _ _ _ (fun s => perPage_ne_tag _ s)]
      exact List.not_mem_nil _
    · rw [mem_parseSortParams_iff _ _ _ _ (page_ne_sortDirAsc _)
        (page_ne_sortDirDesc _) (fun s => page_ne_sortAttr _ s)]
      refine mem_parsePageParams_page _ _ _ ?_
      rw [mem_parseTag_iff _ _ _ (fun s => page_ne_tag _ s)]
      exact List.not_mem_nil _
  · refine ⟨_, rfl, ?_, ?_⟩
    · rw [mem_parseSortParams_iff _ _ _ _ (perPage_ne_sortDirAsc _)
        (perPage_ne_sortDirDesc _) (fun s => perPage_ne_sortAttr _ s)]
      exact mem_parsePageParams_perPage _ _ _ (List.not_mem_nil _)
    · rw [mem_parseSortParams_iff _ _ _ _ (page_ne_sortDirAsc _)
        (page_ne_sortDirDesc _) (fun s => page_ne_sortAttr _ s)]
      exact mem_parsePageParams_page _ _ _ (List.not_mem_nil _)

/-- C5 witness: the shows endpoint with per-page 10 and page 3 yields both
parameters; with the defaults 20 and 1 it yields neither. -/
theorem pageParams_added_iff_witness :
    (∃ c, newClient.fromArgs showsPath { perPage := 10, page := 3 } = Except.ok c ∧
      (("per_page=10") ∈ c.Parameters ↔ ((10 : Int) ≠ 20 ∧ (0 : Int) < 10)) ∧
      (("page=3") ∈ c.Parameters ↔ (1 : Int) < 3)) ∧
    (∃ c, newClient.fromArgs venuesPath { } = Except.ok c ∧
      (("per_page=20") ∈ c.Parameters ↔ ((20 : Int) ≠ 20 ∧ (0 : Int) < 20)) ∧
      (("page=1") ∈ c.Parameters ↔ (1 : Int) < 1)) :=
  ⟨pageParams_added_iff showsPath { perPage := 10, page := 3 } (by decide),
   pageParams_added_iff venuesPath { } (by decide)⟩

/-! ### Projection facts for the parameter-appending helpers -/

theorem parseSortParams_PrintJSON (c : Client) (sd sa : String) :
    (c.parseSortParams sd sa).PrintJSON = c.PrintJSON := by
  unfold Client.parseSortParams
  split_ifs <;> rfl

theorem parsePageParams_PrintJSON (c : Client) (v p : Int) :
    (c.parsePageParams v p).PrintJSON = c.PrintJSON := by
  unfold Client.parsePageParams
  split_ifs <;> rfl

theorem parseTag_PrintJSON (c : Client) (t : String) :
    (c.parseTag t).PrintJSON = c.PrintJSON := by
  unfold Client.parseTag
  split_ifs <;> rfl

/-- Whether `fromArgs` succeeds never depends on the output flag value. -/
theorem fromArgs_isOk_output_independent (path : String) (fl : Flags) (x y : String) :
    exceptOk (newClient.fromArgs path { fl with output := x }) =
      exceptOk (newClient.fromArgs path { fl with output := y }) := by
  unfold Client.fromArgs
  dsimp only
  split_ifs <;> rfl

/-- On success, `PrintJSON` is exactly the comparison of the output flag
value against the literal `json`. -/
theorem fromArgs_PrintJSON_eq (path : String) (fl : Flags) (c : Client)
    (h : newClient.fromArgs path fl = Except.ok c) :
    c.PrintJSON = (fl.output == ("json")) := by
  unfold Client.fromArgs at h
  dsimp only at h
  split_ifs at h
  all_goals first
    | exact Except.noConfusion h
    | (injection h with h
       subst h
       rw [parseSortParams_PrintJSON, parsePageParams_PrintJSON, parseTag_PrintJSON])
    | (injection h with h
       subst h
       rw [parseSortParams_PrintJSON, parsePageParams_PrintJSON])
    | (injection h with h
       subst h
       rfl)

/-- The earliest iteration (`validateParams`) fails exactly on output values
other than `text` and `json`. -/
theorem validateParams_error_iff (c : Client) (output : String) (verbose : Bool)
    (sortDir sortAttr tag : String) (perPage page : Int) :
    exceptOk (c.validateParams output verbose sortDir sortAttr tag perPage page) = false ↔
      (output ≠ ("text") ∧ output ≠ ("json")) := by
  unfold Client.validateParams
  split_ifs with h <;> simp [exceptOk, h]

/-- C6 counterexample: the value `xml` is neither `text` nor `json`, yet the
current normalizer accepts the invocation without any error and silently
renders as text (`PrintJSON` stays false). -/
theorem outputFormat_not_validated_cex :
    (("xml") : String) ≠ ("text") ∧ (("xml") : String) ≠ ("json") ∧
    newClient.fromArgs erasPath { output := ("xml") } = Except.ok newClient :=
  ⟨by decide, by decide, rfl⟩

/-- C6 amended: the current `fromArgs` never validates the output-format flag:
whether normalization succeeds is independent of the output value, and on
success `PrintJSON` is set iff the value is exactly `json` (any other value is
silently rendered as text).  Only the earliest iteration (`validateParams` in
go-phishin/client.go) rejected values other than `text` and `json`, and it
rejected exactly those. -/
theorem outputFormat_silently_coerced :
    (∀ (path : String) (fl : Flags) (x y : String),
      exceptOk (newClient.fromArgs path { fl with output := x }) =
        exceptOk (newClient.fromArgs path { fl with output := y })) ∧
    (∀ (path : String) (fl : Flags) (c : Client),
      newClient.fromArgs path fl = Except.ok c → c.PrintJSON = (fl.output == ("json"))) ∧
    (∀ (c : Client) (output : String) (verbose : Bool) (sortDir sortAttr tag : String)
      (perPage page : Int),
      exceptOk (c.validateParams output verbose sortDir sortAttr tag perPage page) = false ↔
        (output ≠ ("text") ∧ output ≠ ("json"))) :=
  ⟨fromArgs_isOk_output_independent, fromArgs_PrintJSON_eq, validateParams_error_iff⟩

/-- C6 amended witness: the theorem applied at concrete inputs. -/
theorem outputFormat_silently_coerced_witness :
    (exceptOk (newClient.fromArgs showsPath { output := ("xml") }) =
      exceptOk (newClient.fromArgs showsPath { output := ("yaml") })) ∧
    newClient.PrintJSON = ((("text") : String) == ("json")) ∧
    exceptOk (newClient.validateParams ("xml") false "" "" "" 20 1) = false :=
  ⟨outputFormat_silently_coerced.1 showsPath { } ("xml") ("yaml"),
   outputFormat_silently_coerced.2.1 erasPath { } newClient rfl,
   (outputFormat_silently_coerced.2.2 newClient ("xml") false "" "" "" 20 1).mpr
     (by decide)⟩

/-! ### Duration formatting (convertMillisecondToConcertDuration) -/

/-- `convertMillisecondToConcertDuration`: the Go source builds
`time.Unix(ms/1000, (ms%1000)*1e6).UTC()` and reads `Hour`, `Minute` and
`Second` from it.  For a non-negative millisecond count those clock fields
are, by the epoch semantics of `time.Unix`, total-seconds floor-divided and
wrapped: hour-of-day `secs / 3600 % 24`, minute `secs / 60 % 60` and second
`secs % 60` (the nanosecond part never reaches the second).  The rendering
keeps the source shape: hours and minutes when the hour field is non-zero,
otherwise minutes and seconds. -/
def convertMillisecondToConcertDuration (ms : Nat) : String :=
  let secs := ms / 1000
  let hour := secs / 3600 % 24
  let minute := secs / 60 % 60
  let second := secs % 60
  if hour ≠ 0 then
    toString hour ++ ("h ") ++ toString minute ++ ("m")
  else
    toString minute ++ ("m ") ++ toString second ++ ("s")

/-- Rendering as worded by the claim (C4): plain floor-division of the
millisecond count into hours, minutes and seconds with no wrap-around. -/
def claimDurationRendering (ms : Nat) : String :=
  let h := ms / 3600000
  let m := ms % 3600000 / 60000
  let s := ms % 60000 / 1000
  if h > 0 then
    toString h ++ ("h ") ++ toString m ++ ("m")
  else
    toString m ++ ("m ") ++ toString s ++ ("s")

/-- C4 counterexample: at exactly twenty-four hours the formatter wraps to
`0m 0s` while the floor-division reading of the claim demands `24h 0m`. -/
theorem duration_wraps_at_24h_cex :
    convertMillisecondToConcertDuration 86400000 = ("0m 0s") ∧
    claimDurationRendering 86400000 = ("24h 0m") ∧
    convertMillisecondToConcertDuration 86400000 ≠ claimDurationRendering 86400000 := by
  decide

theorem duration_eq_claim_of_lt (ms : Nat) (h : ms < 86400000) :
    convertMillisecondToConcertDuration ms = claimDurationRendering ms := by
  have e1 : ms / 1000 / 3600 % 24 = ms / 3600000 := by omega
  have e2 : ms / 1000 / 60 % 60 = ms % 3600000 / 60000 := by omega
  have e3 : ms / 1000 % 60 = ms % 60000 / 1000 := by omega
  simp only [convertMillisecondToConcertDuration, claimDurationRendering]
  rw [e1, e2, e3]
  by_cases h0 : ms / 3600000 = 0 <;> simp [h0, Nat.pos_iff_ne_zero]

/-- C4 amended: the formatter agrees with the floor-division rendering of the
claim for every millisecond value below twenty-four hours (86400000 ms),
including both example vectors; at and above twenty-four hours the hour field
wraps modulo 24 (see the counterexample), because the source reads the
hour-of-day of an epoch-based clock time. -/
theorem duration_floorDivision_below_24h :
    (∀ ms : Nat, ms < 86400000 →
      convertMillisecondToConcertDuration ms = claimDurationRendering ms) ∧
    convertMillisecondToConcertDuration 368618 = ("6m 8s") ∧
    convertMillisecondToConcertDuration 9601071 = ("2h 40m") :=
  ⟨duration_eq_claim_of_lt, by decide, by decide⟩

/-- C4 amended witness: the theorem applied at the first example vector. -/
theorem duration_floorDivision_below_24h_witness :
    convertMillisecondToConcertDuration 368618 = claimDurationRendering 368618 :=
  duration_floorDivision_below_24h.1 368618 (by decide)

/-! ### Boolean display flags (trueAsYes / soundTreatment) -/

/-- `trueAsYes.String` as it stands in the current renderer file (the
`PrettyPrinter`-based iteration of cli.go): `yes` when true and `no` when
false. -/
def trueAsYesString (b : Bool) : String :=
  if b then ("yes") else ("no")

namespace EarlierCli

/-- `trueAsYes.String` of the earlier cli iteration (the free-function
renderer file): `yes` when true and the empty string when false. -/
def trueAsYesString (b : Bool) : String :=
  if b then ("yes") else ""

end EarlierCli

/-- `soundTreatment.String` of the earliest iterations (package `phishin`):
`yes` when true and the empty string when false. -/
def soundTreatmentString (b : Bool) : String :=
  if b then ("yes") else ""

/-- C7 counterexample: in the current renderer a false flag renders as `no`,
not as the empty string the claim demands. -/
theorem trueAsYes_false_renders_no_cex :
    trueAsYesString false = ("no") ∧ trueAsYesString false ≠ "" := by
  exact ⟨rfl, by decide⟩

/-- C7 amended: a true flag renders as `yes` in every iteration; a false flag
renders as the empty string in the earlier cli iteration and in the
`soundTreatment` renderers, but as `no` in the current cli renderer. -/
theorem boolFlag_rendering_by_iteration :
    trueAsYesString true = ("yes") ∧ trueAsYesString false = ("no") ∧
    EarlierCli.trueAsYesString true = ("yes") ∧ EarlierCli.trueAsYesString false = "" ∧
    soundTreatmentString true = ("yes") ∧ soundTreatmentString false = "" := by
  decide

/-! ### The grouped track listing of a show (ShowOutput.PrettyPrint) -/

/-- One emitted output line.  Each `Fprint` call of a renderer contributes one
value; the tab-alignment pass of the `tabwriter` is presentation only and is
not modelled. -/
inductive OutLine where
  | header (s : String)
  | row (s : String)
  | blank
  | setHeading (s : String)
  | footer (totalEntries totalPages currentPage : Int)
deriving DecidableEq, Repr, Inhabited

/-- `TrackOutput`, restricted to the fields the modelled renderers read (the
structured tag list, used only by the JSON output and the verbose track-info
block, is omitted). -/
structure TrackOutput where
  ID : Int := 0
  ShowDate : String := ""
  VenueName : String := ""
  VenueLocation : String := ""
  Title : String := ""
  Duration : String := ""
  SetName : String := ""
  Mp3 : String := ""
deriving DecidableEq, Repr, Inhabited

/-- The running maximum of the title lengths, from the
`longestTitleLen` loop of `ShowOutput.PrettyPrint` (titles are ASCII in
practice, so character count stands in for the byte count Go measures). -/
def longestTitleLen (ts : List TrackOutput) : Nat :=
  ts.foldl (fun m t => max m t.Title.length) 0

/-- Right-padding of a title to the widest title of the render call, from the
`strings.Repeat` in `ShowOutput.PrettyPrint`. -/
def padTitle (width : Nat) (title : String) : String :=
  title ++ String.mk (List.replicate (width - title.length) ' ')

/-- The grouped track listing block of `ShowOutput.PrettyPrint` (the same
block appears verbatim in the verbose and the plain branch): a set-name
heading for the first track, then for each index `i` a blank line and a new
heading whenever `i > 1` and the set name differs from the previous track,
followed by the padded title row. -/
def showTrackListing (ts : List TrackOutput) : List OutLine :=
  match ts with
  | [] => []
  | t0 :: _ =>
    OutLine.setHeading t0.SetName ::
      (List.range ts.length).flatMap fun i =>
        (if i > 1 ∧ (ts.get! i).SetName ≠ (ts.get! (i - 1)).SetName then
          [OutLine.blank, OutLine.setHeading (ts.get! i).SetName]
        else
          []) ++
        [OutLine.row (padTitle (longestTitleLen ts) (ts.get! i).Title ++ "\t" ++
          (ts.get! i).Duration)]

/-- The set-name headings of an emitted line list, in order. -/
def setHeadings : List OutLine → List String
  | [] => []
  | OutLine.setHeading s :: rest => s :: setHeadings rest
  | _ :: rest => setHeadings rest

/-- The headings the claim (C2) describes: one before the first track and one
at every index `i ≥ 1` whose set name differs from the previous track. -/
def claimSetHeadings (ts : List TrackOutput) : List String :=
  match ts with
  | [] => []
  | t0 :: _ =>
    t0.SetName ::
      (((List.range ts.length).filter fun i =>
          1 ≤ i ∧ (ts.get! i).SetName ≠ (ts.get! (i - 1)).SetName).map
        fun i => (ts.get! i).SetName)

/-- A two-track show whose set changes at the second track. -/
def exTracks : List TrackOutput :=
  [{ Title := ("Tweezer"), Duration := ("10m 0s"), SetName := ("Set 1") },
   { Title := ("Golgi Apparatus"), Duration := ("4m 41s"), SetName := ("Encore") }]

/-- C2 counterexample: with a set change at the second track the renderer
emits no second heading (the loop guard is `i > 1`, so index 1 can never
emit one), while the claim demands a heading for the `Encore` set. -/
theorem trackListing_second_track_heading_cex :
    setHeadings (showTrackListing exTracks) = [("Set 1")] ∧
    claimSetHeadings exTracks = [("Set 1"), ("Encore")] ∧
    setHeadings (showTrackListing exTracks) ≠ claimSetHeadings exTracks := by
  decide

theorem setHeadings_append (l1 l2 : List OutLine) :
    setHeadings (l1 ++ l2) = setHeadings l1 ++ setHeadings l2 := by
  induction l1 with
  | nil => rfl
  | cons a rest ih => cases a <;> simp [setHeadings, ih]

theorem setHeadings_flatMap (l : List Nat) (f : Nat → List OutLine) :
    setHeadings (l.flatMap f) = l.flatMap fun i => setHeadings (f i) := by
  induction l with
  | nil => rfl
  | cons a rest ih => simp [List.flatMap_cons, setHeadings_append, ih]

theorem flatMap_ite_singleton {α : Type} (l : List Nat) (P : Nat → Prop)
    [DecidablePred P] (g : Nat → α) :
    (l.flatMap fun i => if P i then [g i] else []) = (l.filter fun i => P i).map g := by
  induction l with
  | nil => rfl
  | cons a rest ih =>
    by_cases h : P a <;> simp [List.flatMap_cons, List.filter_cons, h, ih]

/-- C2 amended: the headings of the rendered listing are exactly one heading
for the first track plus one at every index `i ≥ 2` whose set name differs
from the previous track; an index-1 set change gets no heading, and no set
name (`Encore` included) is treated specially. -/
theorem trackListing_headings_characterization (ts : List TrackOutput) (h : ts ≠ []) :
    setHeadings (showTrackListing ts) =
      (ts.get! 0).SetName ::
        (((List.range ts.length).filter fun i =>
            2 ≤ i ∧ (ts.get! i).SetName ≠ (ts.get! (i - 1)).SetName).map
          fun i => (ts.get! i).SetName) := by
  match ts with
  | [] => exact absurd rfl h
  | t0 :: rest =>
    show setHeadings (OutLine.setHeading t0.SetName :: _) = _
    rw [show setHeadings (OutLine.setHeading t0.SetName :: _) =
      t0.SetName :: setHeadings _ from rfl]
    rw [setHeadings_flatMap]
    have hsplit : ∀ i : Nat,
        setHeadings ((if i > 1 ∧ ((t0 :: rest).get! i).SetName ≠
            ((t0 :: rest).get! (i - 1)).SetName then
          [OutLine.blank, OutLine.setHeading (((t0 :: rest).get! i)).SetName]
        else
          []) ++
        [OutLine.row (padTitle (longestTitleLen (t0 :: rest))
          ((t0 :: rest).get! i).Title ++ "\t" ++ ((t0 :: rest).get! i).Duration)]) =
        (if i > 1 ∧ ((t0 :: rest).get! i).SetName ≠ ((t0 :: rest).get! (i - 1)).SetName
          then [((t0 :: rest).get! i).SetName] else []) := by
      intro i
      rw [setHeadings_append]
      by_cases hc : i > 1 ∧ ((t0 :: rest).get! i).SetName ≠
          ((t0 :: rest).get! (i - 1)).SetName
      · rw [if_pos hc, if_pos hc]
        simp [setHeadings]
      · rw [if_neg hc, if_neg hc]
        simp [setHeadings]
    simp only [hsplit]
    rw [flatMap_ite_singleton]
    rfl

/-- C2 amended witness: the characterization evaluated on the two-track
example show. -/
theorem trackListing_headings_characterization_witness :
    setHeadings (showTrackListing exTracks) =
      (exTracks.get! 0).SetName ::
        (((List.range exTracks.length).filter fun i =>
            2 ≤ i ∧ (exTracks.get! i).SetName ≠ (exTracks.get! (i - 1)).SetName).map
          fun i => (exTracks.get! i).SetName) :=
  trackListing_headings_characterization exTracks (by decide)

/-! ### List renderers and the pagination footer -/

/-- `VenueOutput`, restricted to the fields the renderers read. -/
structure VenueOutput where
  Name : String := ""
  Location : String := ""
  ShowsCount : Int := 0
  ShowDates : List String := []
deriving DecidableEq, Repr, Inhabited

/-- `VenuesOutput`: the venues list with its pagination envelope. -/
structure VenuesOutput where
  TotalEntries : Int := 0
  TotalPages : Int := 0
  CurrentPage : Int := 0
  Venues : List VenueOutput := []
deriving DecidableEq, Repr, Inhabited

/-- `ShowOutput`, restricted to the fields the list renderers read (the
nested venue and the tag list are omitted). -/
structure ShowOutput where
  ID : Int := 0
  Date : String := ""
  Duration : String := ""
  Sbd : Bool := false
  Remastered : Bool := false
  VenueName : String := ""
  VenueLocation : String := ""
  Tracks : List TrackOutput := []
deriving DecidableEq, Repr, Inhabited

/-- `ShowsOutput`: the shows list with its pagination envelope. -/
structure ShowsOutput where
  TotalEntries : Int := 0
  TotalPages : Int := 0
  CurrentPage : Int := 0
  Shows : List ShowOutput := []
deriving DecidableEq, Repr, Inhabited

/-- `SongOutput`, restricted to the fields the songs list renderer reads. -/
structure SongOutput where
  ID : Int := 0
  Title : String := ""
  Original : Bool := false
  Artist : String := ""
  TracksCount : Int := 0
deriving DecidableEq, Repr, Inhabited

/-- `SongsOutput`: the songs list with its pagination envelope. -/
structure SongsOutput where
  TotalEntries : Int := 0
  TotalPages : Int := 0
  CurrentPage : Int := 0
  Songs : List SongOutput := []
deriving DecidableEq, Repr, Inhabited

/-- `TracksOutput`: the tracks list with its pagination envelope. -/
structure TracksOutput where
  TotalEntries : Int := 0
  TotalPages : Int := 0
  CurrentPage : Int := 0
  Tracks : List TrackOutput := []
deriving DecidableEq, Repr, Inhabited

/-- The pagination footer line (`Total Entries: %d  Total Pages: %d  Result
Page: %d`). -/
def footerFor (totalEntries totalPages currentPage : Int) : OutLine :=
  OutLine.footer totalEntries totalPages currentPage

/-- `VenuesOutput.PrettyPrint`: header, one row per venue, a blank line, and
the footer — guarded by `CurrentPage ≠ 0`, unlike every other list renderer. -/
def VenuesOutput.prettyLines (v : VenuesOutput) : List OutLine :=
  OutLine.header ("Venue:\tLocation:\tShow Count:") ::
    v.Venues.map (fun x =>
      OutLine.row (x.Name ++ "\t" ++ x.Location ++ "\t" ++ toString x.ShowsCount)) ++
  [OutLine.blank] ++
  (if v.CurrentPage ≠ 0 then [footerFor v.TotalEntries v.TotalPages v.CurrentPage] else [])

namespace EarlierCli

/-- `prettyPrintVenues` of the earlier cli iteration: identical shape, and the
footer is likewise guarded by `CurrentPage ≠ 0`. -/
def prettyPrintVenuesLines (v : VenuesOutput) : List OutLine :=
  OutLine.header ("Venue:\tLocation:\tShow Count:") ::
    v.Venues.map (fun x =>
      OutLine.row (x.Name ++ "\t" ++ x.Location ++ "\t" ++ toString x.ShowsCount)) ++
  [OutLine.blank] ++
  (if v.CurrentPage ≠ 0 then [footerFor v.TotalEntries v.TotalPages v.CurrentPage] else [])

end EarlierCli

/-- `ShowsOutput.PrettyPrint`: verbose and plain column sets; in both branches
the blank line and footer are emitted only when `TotalEntries ≠ 0` (the year
details response prints a `ShowsOutput` with a zero envelope). -/
def ShowsOutput.prettyLines (s : ShowsOutput) (verbose : Bool) : List OutLine :=
  if verbose then
    OutLine.header ("ID:\tDate:\tVenue:\tLocation:\tDuration:\tSoundboard:\tRemastered:") ::
      s.Shows.map (fun sh =>
        OutLine.row (toString sh.ID ++ "\t" ++ sh.Date ++ "\t" ++ sh.VenueName ++ "\t" ++
          sh.VenueLocation ++ "\t" ++ sh.Duration ++ "\t" ++ trueAsYesString sh.Sbd ++
          "\t" ++ trueAsYesString sh.Remastered)) ++
      (if s.TotalEntries ≠ 0 then
        [OutLine.blank, footerFor s.TotalEntries s.TotalPages s.CurrentPage]
      else
        [])
  else
    OutLine.header ("Date:\tVenue:\tLocation:\tDuration:") ::
      s.Shows.map (fun sh =>
        OutLine.row (sh.Date ++ "\t" ++ sh.VenueName ++ "\t" ++ sh.VenueLocation ++ "\t" ++
          sh.Duration)) ++
      (if s.TotalEntries ≠ 0 then
        [OutLine.blank, footerFor s.TotalEntries s.TotalPages s.CurrentPage]
      else
        [])

/-- `SongsOutput.PrettyPrint`: header, rows (a cover lists its original
artist), a blank line, and the footer guarded by `TotalEntries ≠ 0`. -/
def SongsOutput.prettyLines (s : SongsOutput) : List OutLine :=
  OutLine.header ("Title:\tOriginal Artist:\tTracksCount:") ::
    s.Songs.map (fun song =>
      OutLine.row (song.Title ++ "\t" ++ (if song.Original then ("Phish") else song.Artist)
        ++ "\t" ++ toString song.TracksCount)) ++
  [OutLine.blank] ++
  (if s.TotalEntries ≠ 0 then [footerFor s.TotalEntries s.TotalPages s.CurrentPage] else [])

/-- `TracksOutput.PrettyPrint`: header, rows, a blank line, and the footer
guarded by `TotalEntries ≠ 0`. -/
def TracksOutput.prettyLines (t : TracksOutput) : List OutLine :=
  OutLine.header ("ID:\tDate:\tVenue:\tLocation:\tTitle:\tMp3:") ::
    t.Tracks.map (fun tr =>
      OutLine.row (toString tr.ID ++ "\t" ++ tr.ShowDate ++ "\t" ++ tr.VenueName ++ "\t" ++
        tr.VenueLocation ++ "\t" ++ tr.Title ++ "\t" ++ tr.Mp3)) ++
  [OutLine.blank] ++
  (if t.TotalEntries ≠ 0 then [footerFor t.TotalEntries t.TotalPages t.CurrentPage] else [])

/-- Whether a rendered line list contains the pagination footer. -/
def hasFooter (ls : List OutLine) : Bool :=
  ls.any fun l =>
    match l with
    | OutLine.footer _ _ _ => true
    | _ => false

/-- C3 counterexample: a venues model with three total entries and a zero
current page gets no footer, and one with zero total entries and a non-zero
current page gets one — the venues footer tests `currentPage`, not
`totalEntries` as the claim states. -/
theorem venuesFooter_totalEntries_cex :
    hasFooter (VenuesOutput.prettyLines { TotalEntries := 3, TotalPages := 1 }) = false ∧
    hasFooter (VenuesOutput.prettyLines { CurrentPage := 5 }) = true := by
  decide

/-- C3 amended: the shows, songs and tracks list renderers append the footer
iff `totalEntries ≠ 0`, but both venues renderers append it iff
`currentPage ≠ 0`. -/
theorem paginationFooter_conditions :
    (∀ (s : ShowsOutput) (verbose : Bool),
      hasFooter (s.prettyLines verbose) = decide (s.TotalEntries ≠ 0)) ∧
    (∀ s : SongsOutput, hasFooter s.prettyLines = decide (s.TotalEntries ≠ 0)) ∧
    (∀ t : TracksOutput, hasFooter t.prettyLines = decide (t.TotalEntries ≠ 0)) ∧
    (∀ v : VenuesOutput, hasFooter v.prettyLines = decide (v.CurrentPage ≠ 0)) ∧
    (∀ v : VenuesOutput,
      hasFooter (EarlierCli.prettyPrintVenuesLines v) = decide (v.CurrentPage ≠ 0)) := by
  refine ⟨?_, ?_, ?_, ?_, ?_⟩
  · intro s verbose
    unfold ShowsOutput.prettyLines hasFooter
    split_ifs with hv h h <;> simp [List.any_map, Function.comp, footerFor, h]
  · intro s
    unfold SongsOutput.prettyLines hasFooter
    split_ifs with h <;> simp [List.any_map, Function.comp, footerFor, h]
  · intro t
    unfold TracksOutput.prettyLines hasFooter
    split_ifs with h <;> simp [List.any_map, Function.comp, footerFor, h]
  · intro v
    unfold VenuesOutput.prettyLines hasFooter
    split_ifs with h <;> simp [List.any_map, Function.comp, footerFor, h]
  · intro v
    unfold EarlierCli.prettyPrintVenuesLines hasFooter
    split_ifs with h <;> simp [List.any_map, Function.comp, footerFor, h]

/-! ### Response status handling (Client.Get) -/

/-- What a fetch does once the response status is known: whether it fails
hard, and whether the search-syntax hints block is printed to standard
error. -/
structure GetOutcome where
  errored : Bool
  searchTipsPrinted : Bool
deriving DecidableEq, Repr

/-- The status handling of `Client.Get` (and of `getAndPrintRaw`) in the
current client: any status other than 200 is a hard failure, and exactly the
status 404 additionally prints the `searchTips` block first. -/
def getStatusOutcome (statusCode : Nat) : GetOutcome :=
  if statusCode ≠ 200 then
    { errored := true, searchTipsPrinted := statusCode == 404 }
  else
    { errored := false, searchTipsPrinted := false }

namespace EarlierCli

/-- The status handling of `Client.Get` in the earlier cli iteration (and in
the go-phishin iteration): any status other than 200 is a hard failure, and
no status prints the hints block. -/
def getStatusOutcome (statusCode : Nat) : GetOutcome :=
  { errored := statusCode ≠ 200, searchTipsPrinted := false }

end EarlierCli

/-- C8 counterexample: the `Client.Get` of the earlier cli iteration, which
the claim also covers, prints no hints on a 404. -/
theorem earlier_get_no_hints_on_404_cex :
    (EarlierCli.getStatusOutcome 404).searchTipsPrinted = false ∧
    (EarlierCli.getStatusOutcome 404).errored = true := by
  decide

/-- C8 amended: in the current client a fetch prints the search-syntax hints
iff the status is 404 (so no other non-200 status prints them), every non-200
status is a hard failure, and a 200 neither fails nor prints hints; the
`Client.Get` of the earlier iterations never prints hints for any status. -/
theorem searchTips_iff_404 :
    (∀ statusCode : Nat,
      (getStatusOutcome statusCode).searchTipsPrinted = (statusCode == 404)) ∧
    (∀ statusCode : Nat,
      (getStatusOutcome statusCode).errored = (statusCode != 200)) ∧
    (∀ statusCode : Nat,
      (EarlierCli.getStatusOutcome statusCode).searchTipsPrinted = false) := by
  refine ⟨fun s => ?_, fun s => ?_, fun s => rfl⟩
  · unfold getStatusOutcome
    split_ifs with h
    · rfl
    · rw [not_not] at h
      subst h
      rfl
  · unfold getStatusOutcome
    split_ifs with h
    · simp [bne, h]
    · rw [not_not] at h
      subst h
      rfl

/-! ### The bulk downloader file naming (getShow / getTrack) -/

/-- A wire `Track`, restricted to the fields the downloader reads. -/
structure Track where
  Slug : String := ""
  Mp3 : String := ""
deriving DecidableEq, Repr, Inhabited

/-- A wire `Show`, restricted to the fields the downloader reads. -/
structure ShowWire where
  Date : String := ""
  Tracks : List Track := []
deriving DecidableEq, Repr, Inhabited

/-- One download task as `DownloadTrack` receives it: the directory, the
destination file name, and the media URL. -/
structure DownloadTask where
  dirName : String
  fileName : String
  url : String
deriving DecidableEq, Repr, Inhabited

/-- The task-spawning loop of `getShow`: the loop counter starts at the
1-based track position (`i, t := i+1, t`), and each task gets the file name
`<position>-<slug>.mp3` inside the show-date directory. -/
def numberTracks (date : String) (position : Nat) : List Track → List DownloadTask
  | [] => []
  | t :: ts =>
    { dirName := date, fileName := toString (position + 1) ++ "-" ++ t.Slug ++ (".mp3"),
      url := t.Mp3 } :: numberTracks date (position + 1) ts

/-- The download planning of `getShow` when download mode is requested:
`os.Mkdir(show.Date)` runs before any task is spawned, and a creation failure
(the directory already existing included) aborts the whole download with an
error; otherwise one task per track is spawned in API order.  The directory
creation is effectful, so its success is an explicit parameter. -/
def getShowDownloadTasks (download : Bool) (mkdirSucceeds : Bool) (s : ShowWire) :
    Except String (List DownloadTask) :=
  if download then
    if mkdirSucceeds then
      Except.ok (numberTracks s.Date 0 s.Tracks)
    else
      Except.error ("unable to create directory for downloaded files")
  else
    Except.ok []

/-- The download planning of `getTrack`: a single task named `<slug>.mp3`
with no position, in the current directory. -/
def getTrackDownloadTasks (download : Bool) (t : Track) : List DownloadTask :=
  if download then
    [{ dirName := ("."), fileName := t.Slug ++ (".mp3"), url := t.Mp3 }]
  else
    []

theorem numberTracks_getElem (date : String) (ts : List Track) (k i : Nat) :
    (numberTracks date k ts)[i]? = ts[i]?.map fun t =>
      { dirName := date, fileName := toString (k + i + 1) ++ "-" ++ t.Slug ++ (".mp3"),
        url := t.Mp3 } := by
  induction ts generalizing k i with
  | nil => simp [numberTracks]
  | cons t ts ih =>
    cases i with
    | zero => simp [numberTracks]
    | succ i =>
      simp only [numberTracks, List.getElem?_cons_succ, ih]
      have : k + (i + 1) + 1 = (k + 1) + i + 1 := by omega
      rw [this]

theorem numberTracks_length (date : String) (k : Nat) (ts : List Track) :
    (numberTracks date k ts).length = ts.length := by
  induction ts generalizing k with
  | nil => rfl
  | cons a l ih => simp [numberTracks, ih]

/-- C9: when download mode is requested, a failed creation of the show-date
directory aborts with an error before any task exists; on success the task
for the track at 0-based index `i` is `<i+1>-<slug>.mp3` inside the
directory named by the show date; and a single-track download is `<slug>.mp3`
with no position prefix. -/
theorem download_file_naming (s : ShowWire) (t : Track) :
    getShowDownloadTasks true false s =
      Except.error ("unable to create directory for downloaded files") ∧
    (∃ tasks, getShowDownloadTasks true true s = Except.ok tasks ∧
      tasks.length = s.Tracks.length ∧
      ∀ i : Nat, tasks[i]? = s.Tracks[i]?.map fun tr =>
        { dirName := s.Date, fileName := toString (i + 1) ++ "-" ++ tr.Slug ++ (".mp3"),
          url := tr.Mp3 }) ∧
    getTrackDownloadTasks true t =
      [{ dirName := ("."), fileName := t.Slug ++ (".mp3"), url := t.Mp3 }] := by
  refine ⟨rfl, ⟨numberTracks s.Date 0 s.Tracks, rfl, ?_, ?_⟩, rfl⟩
  · exact numberTracks_length s.Date 0 s.Tracks
  · intro i
    simpa using numberTracks_getElem s.Date s.Tracks 0 i

/-! ### Progress formatting (humanizeBytes) -/

/-- The four-entry suffix table of `humanizeBytes`. -/
def bytesSuffixes : List String := [(" B"), (" KiB"), (" MiB"), (" GiB")]

/-- `humanizeBytes`, with the floating-point arithmetic of the source
idealized as exact arithmetic: the computed exponent
`math.Floor(logn(float64(b), 1024))` is the integer floor logarithm
`Nat.log 1024 b` (they agree for every `b ≥ 1` in exact arithmetic), and the
displayed value `math.Floor(b/1024^e*10+0.5)/10` is carried exactly as the
numerator `n10` of a fraction over 10.  The source indexes `sizes[e]`
unconditionally, which panics out of range; the panic is modelled as `none`.
One decimal place is shown below 10 units of the chosen suffix (`n10 < 100`),
else the value is rendered as an integer. -/
def humanizeBytes (b : Nat) : Option String :=
  if b < 10 then
    some (toString b ++ (" B"))
  else
    match bytesSuffixes[Nat.log 1024 b]? with
    | none => none
    | some suffix =>
      let n10 := (20 * b + 1024 ^ Nat.log 1024 b) / (2 * 1024 ^ Nat.log 1024 b)
      if n10 < 100 then
        some (toString (n10 / 10) ++ (".") ++ toString (n10 % 10) ++ suffix)
      else
        some (toString ((n10 + 5) / 10) ++ suffix)

/-- C10: below `1024^4` the computed exponent stays within the four-entry
suffix table and `humanizeBytes` returns a string; from `1024^4` on the
exponent is at least 4 and the table access is out of range. -/
theorem humanizeBytes_table_bounds (b : Nat) :
    (b < 1024 ^ 4 → (humanizeBytes b).isSome = true) ∧
    (1024 ^ 4 ≤ b → 4 ≤ Nat.log 1024 b ∧ humanizeBytes b = none) := by
  constructor
  · intro h
    unfold humanizeBytes
    split_ifs with h10
    · rfl
    · have hb0 : b ≠ 0 := by omega
      have hlt : Nat.log 1024 b < 4 := Nat.log_lt_of_lt_pow hb0 h
      have hlen : Nat.log 1024 b < bytesSuffixes.length := by
        simpa [bytesSuffixes] using hlt
      rw [List.getElem?_eq_getElem hlen]
      dsimp only
      split_ifs <;> rfl
  · intro h
    have h4 : (0 : Nat) < 1024 ^ 4 := by norm_num
    have hb0 : b ≠ 0 := by omega
    have hge : 4 ≤ Nat.log 1024 b :=
      (Nat.pow_le_iff_le_log (by norm_num) hb0).mp h
    refine ⟨hge, ?_⟩
    unfold humanizeBytes
    have h10 : ¬b < 10 := by
      have : (10 : Nat) ≤ 1024 ^ 4 := by norm_num
      omega
    rw [if_neg h10]
    have hnone : bytesSuffixes[Nat.log 1024 b]? = none :=
      List.getElem?_eq_none (by simpa [bytesSuffixes] using hge)
    rw [hnone]

/-- C10 witness: the theorem applied just below and exactly at `1024^4`. -/
theorem humanizeBytes_table_bounds_witness :
    (humanizeBytes 368618).isSome = true ∧
    (4 ≤ Nat.log 1024 (1024 ^ 4) ∧ humanizeBytes (1024 ^ 4) = none) :=
  ⟨(humanizeBytes_table_bounds 368618).1 (by norm_num),
   (humanizeBytes_table_bounds (1024 ^ 4)).2 (le_refl _)⟩
